import Mathlib

/-!
Shallow embedding of the microVM lifecycle engine of `firecracker-poc`
(`src/lib.rs`, `src/runner.rs`).  Rust functions become Lean functions;
the effectful parts (HTTP calls over the control socket, the guest HTTP
agent, the filesystem, process spawning) are modelled by explicit
environments passed to the functions, so that every definition is
executable and every branch of the source is represented.  The
test-mode short-circuits (`is_test_mode`) are not modelled: all
definitions follow the production paths.
-/

/-- From `src/lib.rs`: response structure for code execution results. -/
structure ExecuteResponse where
  stdout : String
  stderr : String
  success : Bool
deriving DecidableEq, Repr

/-- From `src/lib.rs`: the `ExecutionError` enum. -/
inductive ExecutionError where
  | ApiCommunicationError (msg : String)
  | TimeoutError
  | TimeoutErrorWithLogs (msg : String)
  | SerializationError (msg : String)
  | ResourceError (msg : String)
  | ProcessSpawnError (msg : String)
deriving DecidableEq, Repr

/-- The `thiserror` `Display` implementation of `ExecutionError`
(the `#[error("...")]` attributes in `src/lib.rs`). -/
def ExecutionError.display : ExecutionError → String
  | .ApiCommunicationError m => "API communication error: " ++ m
  | .TimeoutError => "Execution timed out after 30 seconds"
  | .TimeoutErrorWithLogs m => "Execution timed out. Logs:\n" ++ m
  | .SerializationError m => "Serialization error: " ++ m
  | .ResourceError m => "Resource management error: " ++ m
  | .ProcessSpawnError m => "Process spawning error: " ++ m

/-- `const VM_BOOT_TIMEOUT_SECONDS: u64 = 15;` -/
def VM_BOOT_TIMEOUT_SECONDS : Nat := 15

/-- `const VM_EXECUTE_TIMEOUT_SECONDS: u64 = 35;` -/
def VM_EXECUTE_TIMEOUT_SECONDS : Nat := 35

/-- `const VM_POOL_SIZE: usize = 3;` -/
def VM_POOL_SIZE : Nat := 3

/-- `pub const VM_PREWARM_COUNT: usize = 2;` -/
def VM_PREWARM_COUNT : Nat := 2

/-- Value of a hexadecimal digit, as `char::to_digit(16)` computes it
from the code point inside `u32::from_str_radix(_, 16)`. -/
def hexVal (c : Char) : Option Nat :=
  if '0' ≤ c ∧ c ≤ '9' then some (c.toNat - Char.toNat '0')
  else if 'a' ≤ c ∧ c ≤ 'f' then some (c.toNat - Char.toNat 'a' + 10)
  else if 'A' ≤ c ∧ c ≤ 'F' then some (c.toNat - Char.toNat 'A' + 10)
  else none

/-- `u32::from_str_radix(s, 16)`: an optional leading `+`, then at least one
hex digit, value below `2^32` (overflow is an error in Rust). -/
def fromStrRadix16 (s : String) : Option Nat :=
  let cs := match s.data with
    | '+' :: rest => rest
    | cs => cs
  if cs.isEmpty then none
  else
    match cs.foldl
        (fun acc c =>
          match acc, hexVal c with
          | some a, some v => some (a * 16 + v)
          | _, _ => none)
        (some 0) with
    | some v => if v < 2 ^ 32 then some v else none
    | none => none

/-- Rust's byte slice `&vm_id[..8]` on the (ASCII) identity string. -/
def take8 (s : String) : String := String.mk (s.data.take 8)

/-- From `VMManager::new`:
`let subnet_id = u32::from_str_radix(&vm_id[..8], 16).unwrap_or(1) % 254 + 1;` -/
def subnetId (vmId : String) : Nat :=
  (fromStrRadix16 (take8 vmId)).getD 1 % 254 + 1

/-- `let vm_ip = format!("172.16.{subnet_id}.2");` -/
def vmIp (vmId : String) : String :=
  "172.16." ++ Nat.repr (subnetId vmId) ++ ".2"

/-- `let tap_interface = format!("tap-{}", &vm_id[..8]);` -/
def tapInterface (vmId : String) : String :=
  "tap-" ++ take8 vmId

/-- `format!("/tmp/firecracker-{vm_id}.socket")` -/
def socketPath (vmId : String) : String :=
  "/tmp/firecracker-" ++ vmId ++ ".socket"

/-- `format!("/tmp/fc-stdout-{vm_id}.log")` -/
def stdoutLogPath (vmId : String) : String :=
  "/tmp/fc-stdout-" ++ vmId ++ ".log"

/-- `format!("/tmp/fc-stderr-{vm_id}.log")` -/
def stderrLogPath (vmId : String) : String :=
  "/tmp/fc-stderr-" ++ vmId ++ ".log"

/-- Rust's `str::split(sep)` on a character list: splits at every
occurrence of `sep`, keeping empty pieces, never returning `[]`. -/
def splitOnChar (sep : Char) : List Char → List (List Char)
  | [] => [[]]
  | c :: rest =>
    let r := splitOnChar sep rest
    if c = sep then [] :: r
    else
      match r with
      | h :: t => (c :: h) :: t
      | [] => [[c]]

/-- `vm_ip_parts[2]` after `self.vm_ip.split('.')` (indexing a
four-element vector in the source). -/
def ipPart2 (ip : String) : String :=
  String.mk ((splitOnChar '.' ip.data).getD 2 [])

/-- Host-side IP with mask, from `setup_networking`:
`format!("172.16.{subnet_id}.1/24")` where `subnet_id = vm_ip_parts[2]`. -/
def setupHostIpCidr (vmId : String) : String :=
  "172.16." ++ ipPart2 (vmIp vmId) ++ ".1/24"

/-- Host-side IP, from `configure_and_run_vm`:
`format!("172.16.{subnet_id}.1")` where `subnet_id = vm_ip_parts[2]`. -/
def configHostIp (vmId : String) : String :=
  "172.16." ++ ipPart2 (vmIp vmId) ++ ".1"

/-- `http::StatusCode::is_success`: `200..=299`. -/
def statusIsSuccess (s : Nat) : Bool :=
  decide (200 ≤ s) && decide (s ≤ 299)

/-- Canonical reason phrase of the `http` crate, for the codes this
development evaluates (`Display` falls back to `<unknown status code>`). -/
def canonicalReason (s : Nat) : String :=
  if s = 200 then "OK"
  else if s = 204 then "No Content"
  else if s = 400 then "Bad Request"
  else if s = 404 then "Not Found"
  else if s = 500 then "Internal Server Error"
  else "<unknown status code>"

/-- `Display` of `http::StatusCode`: the code then the canonical reason. -/
def statusDisplay (s : Nat) : String :=
  Nat.repr s ++ " " ++ canonicalReason s

/-- Outcome of one request on the Firecracker control socket, as seen by
`send_api_request`: a transport-level failure of `client.request`, a
failure while collecting the body of an error response, or a response
with its status code and body text. -/
inductive ApiOutcome where
  | transportError (e : String)
  | bodyReadError (status : Nat) (e : String)
  | response (status : Nat) (body : String)

/-- The control socket environment: what the hypervisor answers to a
given method, path and request body. -/
def ApiEnv : Type := String → String → String → ApiOutcome

/-- From `VMManager::send_api_request` (src/runner.rs): issues one
request over the Unix socket and maps every non-success outcome to an
`ApiCommunicationError` whose message embeds the status, method, path
and response body. -/
def send_api_request (env : ApiEnv) (method path body : String) :
    Except ExecutionError Unit :=
  match env method path body with
  | .transportError e =>
    .error (.ApiCommunicationError ("API request failed: " ++ e))
  | .bodyReadError _ e =>
    .error (.ApiCommunicationError ("Failed to read error response: " ++ e))
  | .response status rbody =>
    if statusIsSuccess status then .ok ()
    else
      .error (.ApiCommunicationError
        ("API returned error status: " ++ statusDisplay status ++ " for " ++
          method ++ " " ++ path ++ ". Error details: " ++ rbody))

/-- `configure_and_run_vm` builds the kernel boot arguments:
`format!("console=ttyS0 ... init=/usr/local/bin/startup.sh ip={}::{}:255.255.255.0::eth0:off", self.vm_ip, host_ip)`. -/
def bootArgs (vmId : String) : String :=
  "console=ttyS0 reboot=k panic=1 pci=off init=/usr/local/bin/startup.sh ip=" ++
    vmIp vmId ++ "::" ++ configHostIp vmId ++ ":255.255.255.0::eth0:off"

/-- `serde_json` serialization (keys in `BTreeMap` order) of the
boot-source body of `configure_and_run_vm`. -/
def bootSourceBody (vmId : String) : String :=
  "\x7b\"boot_args\":\"" ++ bootArgs vmId ++
    "\",\"kernel_image_path\":\"./hello-vmlinux.bin\"\x7d"

/-- The root-drive body of `configure_and_run_vm`. -/
def rootfsBody : String :=
  "\x7b\"drive_id\":\"rootfs\",\"is_read_only\":false,\"is_root_device\":true,\"path_on_host\":\"./alpine-python-api.ext4\"\x7d"

/-- The network-interface body of `configure_and_run_vm`. -/
def networkBody (vmId : String) : String :=
  "\x7b\"guest_mac\":\"AA:FC:00:00:00:01\",\"host_dev_name\":\"" ++
    tapInterface vmId ++ "\",\"iface_id\":\"eth0\"\x7d"

/-- The start-action body of `configure_and_run_vm`. -/
def actionsBody : String :=
  "\x7b\"action_type\":\"InstanceStart\"\x7d"

/-- One configuration call of `configure_and_run_vm`: method, path,
JSON body, and the `map_err` wrapping text of that step. -/
structure ApiCall where
  method : String
  path : String
  body : String
  wrap : String

/-- The fixed configuration sequence of `configure_and_run_vm`:
machine-config, boot-source, root drive, network interface, start. -/
def configureCalls (vmId machineBody : String) : List ApiCall :=
  [⟨"PUT", "/machine-config", machineBody, "Machine config failed: "⟩,
   ⟨"PUT", "/boot-source", bootSourceBody vmId, "Boot source config failed: "⟩,
   ⟨"PUT", "/drives/rootfs", rootfsBody, "Rootfs config failed: "⟩,
   ⟨"PUT", "/network-interfaces/eth0", networkBody vmId, "Network config failed: "⟩,
   ⟨"PUT", "/actions", actionsBody, "VM start failed: "⟩]

/-- Issues the calls of a list in order, stopping at the first failure
(the `?` operator after each `send_api_request`), wrapping the failing
step's error as the source's `map_err` closures do.  Also returns the
trace of `(method, path)` pairs actually sent on the socket. -/
def runCalls (env : ApiEnv) :
    List ApiCall → Except ExecutionError Unit × List (String × String)
  | [] => (.ok (), [])
  | c :: rest =>
    match send_api_request env c.method c.path c.body with
    | .error e =>
      (.error (.ApiCommunicationError (c.wrap ++ e.display)), [(c.method, c.path)])
    | .ok _ =>
      let (r, tr) := runCalls env rest
      (r, (c.method, c.path) :: tr)

/-- From `VMManager::configure_and_run_vm`: reads the machine
configuration from `fixtures/machine.json` (modelled by the
`machineRead` argument; a read failure is a `ResourceError`), then
issues the five configuration calls in order. -/
def configure_and_run_vm (env : ApiEnv) (machineRead : Except String String)
    (vmId : String) : Except ExecutionError Unit × List (String × String) :=
  match machineRead with
  | .error e =>
    (.error (.ResourceError ("Failed to read machine config: " ++ e)), [])
  | .ok machineBody => runCalls env (configureCalls vmId machineBody)

/-- The body of the readiness loop of `wait_for_api_server`, with the
guest health endpoint modelled as `health : Nat → Bool` (whether the
probe of a given attempt number sees a 2xx).  State: the `attempt`
counter, the current `delay_ms`, and the milliseconds slept so far.
Returns `(succeeded, health checks performed, total sleep in ms)`.
The `fuel` argument only bounds the recursion; the loop itself exits
through the `attempt > VM_BOOT_TIMEOUT_SECONDS * 10` break. -/
def waitLoop (health : Nat → Bool) :
    Nat → Nat → Nat → Nat → Bool × Nat × Nat
  | 0, attempt, _, total => (false, attempt, total)
  | fuel + 1, attempt, delay, total =>
    let attempt := attempt + 1
    let total := if attempt > 1 then total + delay else total
    let delay := if attempt > 1 then min (delay * 2) 1000 else delay
    if attempt > VM_BOOT_TIMEOUT_SECONDS * 10 then (false, attempt - 1, total)
    else if health attempt then (true, attempt, total)
    else waitLoop health fuel attempt delay total

/-- From `VMManager::wait_for_api_server`: polls the guest `/health`
endpoint with exponential backoff (100 ms doubling, capped at 1000 ms);
on exhaustion reads both log files (modelled as arguments) and returns
a `TimeoutErrorWithLogs` embedding them.  Also returns the number of
health checks performed and the total scheduled sleep in ms. -/
def wait_for_api_server (health : Nat → Bool)
    (ip stdoutLog stderrLog : String) :
    Except ExecutionError Unit × Nat × Nat :=
  match waitLoop health (VM_BOOT_TIMEOUT_SECONDS * 10 + 1) 0 100 0 with
  | (true, attempts, total) => (.ok (), attempts, total)
  | (false, attempts, total) =>
    (.error (.TimeoutErrorWithLogs
      ("VM API server at " ++ ip ++ " did not become ready within " ++
        Nat.repr VM_BOOT_TIMEOUT_SECONDS ++
        " seconds\n\nFirecracker stdout:\n" ++ stdoutLog ++
        "\n\nFirecracker stderr:\n" ++ stderrLog)), attempts, total)

/-- `serde_json::Value`, as far as `execute_code_via_api` inspects it. -/
inductive Json where
  | null
  | bool (b : Bool)
  | num (n : Int)
  | str (s : String)
  | arr (elems : List Json)
  | obj (fields : List (String × Json))

/-- `value["key"]`: on an object, the value of the key (or `Null` when
missing); on every other value, `Null`. -/
def Json.getField : Json → String → Json
  | .obj fields, key =>
    match fields.find? (fun f => f.1 == key) with
    | some f => f.2
    | none => .null
  | _, _ => .null

/-- `Value::as_str`. -/
def Json.asStr : Json → Option String
  | .str s => some s
  | _ => none

/-- `Value::as_bool`. -/
def Json.asBool : Json → Option Bool
  | .bool b => some b
  | _ => none

/-- Outcome of the guest-agent `POST /execute` call made by
`execute_code_via_api`: a `reqwest` send failure (including timeouts),
or a response with a status code and a body that either parses to JSON
or fails to parse. -/
inductive ExecOutcome where
  | sendError (e : String)
  | response (status : Nat) (body : Except String Json)

/-- From `VMManager::execute_code_via_api`: posts the code to the guest
agent and builds an `ExecuteResponse`, substituting `""` for a missing
or non-string `stdout`/`stderr` and `false` for a missing or
non-boolean `success` (`unwrap_or` defaults). -/
def execute_code_via_api (outcome : ExecOutcome) :
    Except ExecutionError ExecuteResponse :=
  match outcome with
  | .sendError e =>
    .error (.ApiCommunicationError ("Failed to send request: " ++ e))
  | .response status body =>
    if statusIsSuccess status then
      match body with
      | .error e =>
        .error (.ApiCommunicationError ("Failed to parse response: " ++ e))
      | .ok j =>
        .ok { stdout := ((j.getField "stdout").asStr).getD ""
              stderr := ((j.getField "stderr").asStr).getD ""
              success := ((j.getField "success").asBool).getD false }
    else
      .error (.ApiCommunicationError
        ("API request failed with status: " ++ statusDisplay status))

/-- Environment of `start_firecracker`: outcomes of creating the two
log files and of spawning the `firecracker` binary, plus whether the
control socket file ever appears (which the source never checks). -/
structure SpawnEnv where
  createStdoutLog : Except String Unit
  createStderrLog : Except String Unit
  spawnResult : Except String Unit
  socketAppeared : Bool

/-- From `VMManager::start_firecracker`: creates the log files,
spawns `firecracker --api-sock <socket>` with stdout/stderr redirected
to them, then sleeps a fixed 100 ms and returns.  Returns the result,
the milliseconds slept after the spawn, and whether the child was
force-killed on this path (the source has no kill here). -/
def start_firecracker (env : SpawnEnv) :
    Except ExecutionError Unit × Nat × Bool :=
  match env.createStdoutLog with
  | .error e => (.error (.ResourceError ("cannot create stdout log: " ++ e)), 0, false)
  | .ok _ =>
    match env.createStderrLog with
    | .error e => (.error (.ResourceError ("cannot create stderr log: " ++ e)), 0, false)
    | .ok _ =>
      match env.spawnResult with
      | .error e =>
        (.error (.ProcessSpawnError ("Failed to start Firecracker: " ++ e)), 0, false)
      | .ok _ => (.ok (), 100, false)

/-- Environment of `cleanup`: which paths currently exist
(`try_exists`), the outcome of `remove_file` per path, and the outcome
of the `ip link delete` command of `cleanup_networking`. -/
structure CleanupEnv where
  fs : String → Bool
  removeRes : String → Except String Unit
  linkDelete : Except String Unit

/-- From `VMManager::cleanup_networking`: runs
`sudo ip link delete <tap>` and discards its status (`let _ = ...`),
always returning `Ok(())`. -/
def cleanup_networking (linkDelete : Except String Unit) :
    Except ExecutionError Unit :=
  match linkDelete with
  | _ => .ok ()

/-- One `if try_exists(path) { remove_file(path)? }` block of
`cleanup`: absent paths are skipped without error; a failing removal of
an existing path aborts with a `ResourceError` carrying the given
message prefix and the OS error text. -/
def removeFileIfExists (fs : String → Bool)
    (removeRes : String → Except String Unit) (path label : String) :
    Except ExecutionError (String → Bool) :=
  if fs path then
    match removeRes path with
    | .ok _ => .ok (fun p => if p = path then false else fs p)
    | .error e => .error (.ResourceError (label ++ e))
  else .ok fs

/-- From `VMManager::cleanup`: kills and reaps the child (results
discarded), runs `cleanup_networking` (result discarded), then removes
the socket, stdout log and stderr log, each only if it exists.  Returns
the result together with the filesystem after the removals that
happened. -/
def cleanup (vmId : String) (env : CleanupEnv) :
    Except ExecutionError Unit × (String → Bool) :=
  match cleanup_networking env.linkDelete with
  | _ =>
    match removeFileIfExists env.fs env.removeRes (socketPath vmId)
        "Failed to remove socket: " with
    | .error e => (.error e, env.fs)
    | .ok fs1 =>
      match removeFileIfExists fs1 env.removeRes (stdoutLogPath vmId)
          "Failed to remove stdout log: " with
      | .error e => (.error e, fs1)
      | .ok fs2 =>
        match removeFileIfExists fs2 env.removeRes (stderrLogPath vmId)
            "Failed to remove stderr log: " with
        | .error e => (.error e, fs2)
        | .ok fs3 => (.ok (), fs3)

/-- The pool operations `run_in_vm` performs on `VM_POOL` under the
lock: a checkout (`pop_front`), a checkin after a successful execution
(`push_back` only while `pool.len() < VM_POOL_SIZE`), and a checkin
after a failure (the instance is retired, the pool untouched). -/
inductive PoolOp (α : Type) where
  | checkout
  | checkinSuccess (vm : α)
  | checkinFailure

/-- Effect of one pool operation on the pool queue. -/
def poolStep {α : Type} (pool : List α) : PoolOp α → List α
  | .checkout => pool.tail
  | .checkinSuccess vm =>
    if pool.length < VM_POOL_SIZE then pool ++ [vm] else pool
  | .checkinFailure => pool

/-- Environment of one `run_in_vm` request: the outcomes of the stages
of `create_new_vm` (networking, spawn, configuration, readiness wait),
the outcome of the guest execute call, and the outcomes of the
retirement actions (whose results the source discards). -/
structure VMEnv where
  setupNetworking : Except ExecutionError Unit
  startFirecracker : Except ExecutionError Unit
  configureAndRun : Except ExecutionError Unit
  waitForApi : Except ExecutionError Unit
  execOutcome : ExecOutcome
  shutdownResult : Except ExecutionError Unit
  cleanupResult : Except ExecutionError Unit

/-- The externally visible actions of one `run_in_vm` request, in
order. -/
inductive RunAction where
  | actSetupNet
  | actStartFc
  | actConfigure
  | actWaitApi
  | actExecute
  | actShutdown
  | actCleanup
deriving DecidableEq, Repr

/-- From `create_new_vm` (src/runner.rs): `VMManager::new` (which
cannot fail), then networking setup, Firecracker start, configuration,
and the readiness wait, each aborting the construction with its error
(`?`).  Returns the new instance's identity on success, together with
the actions performed. -/
def create_new_vm (env : VMEnv) (freshId : String) :
    Except ExecutionError String × List RunAction :=
  match env.setupNetworking with
  | .error e => (.error e, [.actSetupNet])
  | .ok _ =>
    match env.startFirecracker with
    | .error e => (.error e, [.actSetupNet, .actStartFc])
    | .ok _ =>
      match env.configureAndRun with
      | .error e => (.error e, [.actSetupNet, .actStartFc, .actConfigure])
      | .ok _ =>
        match env.waitForApi with
        | .error e =>
          (.error e, [.actSetupNet, .actStartFc, .actConfigure, .actWaitApi])
        | .ok _ =>
          (.ok freshId, [.actSetupNet, .actStartFc, .actConfigure, .actWaitApi])

/-- The tail of `run_in_vm` once an instance `vm` is in hand and the
rest of the pool is `pool1`: execute the code, then either return the
instance to the pool (success, pool below capacity), or retire it
(success with a full pool, or any execution error) via the spawned
`shutdown_vm`/`cleanup` task whose results are discarded. -/
def runWithVm (pool1 : List String) (vm : String) (env : VMEnv) :
    Except ExecutionError ExecuteResponse × List String × List RunAction :=
  match execute_code_via_api env.execOutcome with
  | .ok resp =>
    if pool1.length < VM_POOL_SIZE then
      (.ok resp, pool1 ++ [vm], [.actExecute])
    else
      (.ok resp, pool1, [.actExecute, .actShutdown, .actCleanup])
  | .error e => (.error e, pool1, [.actExecute, .actShutdown, .actCleanup])

/-- From `run_in_vm` (src/runner.rs): pop a warm instance from the pool
if one is available, otherwise build a new one with `create_new_vm`
(aborting on a construction error); then run the request tail.
Returns the result, the pool after the request, and the action trace. -/
def run_in_vm (pool : List String) (env : VMEnv) (freshId : String) :
    Except ExecutionError ExecuteResponse × List String × List RunAction :=
  match pool with
  | vm :: rest => runWithVm rest vm env
  | [] =>
    match create_new_vm env freshId with
    | (.error e, tr) => (.error e, [], tr)
    | (.ok vm, tr) =>
      let (r, p, tr2) := runWithVm [] vm env
      (r, p, tr ++ tr2)

example : statusDisplay 400 = "400 Bad Request" := rfl

/-! ## Theorems -/

theorem subnetId_lower (vmId : String) : 1 ≤ subnetId vmId := by
  unfold subnetId; omega

theorem subnetId_upper (vmId : String) : subnetId vmId ≤ 254 := by
  unfold subnetId
  have h : (fromStrRadix16 (take8 vmId)).getD 1 % 254 < 254 :=
    Nat.mod_lt _ (by omega)
  omega

set_option maxRecDepth 4000 in
theorem ipPart2_octet : ∀ o : Nat, o < 255 →
    ipPart2 ("172.16." ++ Nat.repr o ++ ".2") = Nat.repr o := by
  decide

/-- Claim C4: for every instance identity, the derived subnet octet
lies in [1,254], the guest IP is `172.16.<octet>.2`, and the host IP
(both the `/24`-masked form assigned in `setup_networking` and the bare
form used in `configure_and_run_vm`) is `172.16.<octet>.1` of the same
subnet; the derivation is a pure function of the identity. -/
theorem vm_subnet_octet_and_ips (vmId : String) :
    1 ≤ subnetId vmId ∧ subnetId vmId ≤ 254 ∧
    vmIp vmId = "172.16." ++ Nat.repr (subnetId vmId) ++ ".2" ∧
    configHostIp vmId = "172.16." ++ Nat.repr (subnetId vmId) ++ ".1" ∧
    setupHostIpCidr vmId = "172.16." ++ Nat.repr (subnetId vmId) ++ ".1/24" := by
  have hlt : subnetId vmId < 255 := by
    have := subnetId_upper vmId; omega
  have hpart : ipPart2 (vmIp vmId) = Nat.repr (subnetId vmId) :=
    ipPart2_octet (subnetId vmId) hlt
  refine ⟨subnetId_lower vmId, subnetId_upper vmId, rfl, ?_, ?_⟩
  · unfold configHostIp; rw [hpart]
  · unfold setupHostIpCidr; rw [hpart]

theorem wrap_inj (p s a b : String) (h : p ++ a ++ s = p ++ b ++ s) :
    a = b := by
  have hd : (p ++ a ++ s).data = (p ++ b ++ s).data := by rw [h]
  simp only [String.data_append] at hd
  exact String.ext (List.append_cancel_left (List.append_cancel_right hd))

theorem prepend_inj (p a b : String) (h : p ++ a = p ++ b) : a = b := by
  have hd : (p ++ a).data = (p ++ b).data := by rw [h]
  simp only [String.data_append] at hd
  exact String.ext (List.append_cancel_left hd)

/-- Claim C5 counterexample: two distinct identities that agree on
their first 8 characters receive the same virtual-interface name, the
same subnet octet and the same guest IP, so the derived names are not
pairwise distinct for arbitrary distinct identities. -/
theorem namespace_collision_counterexample :
    ("00000000-0000-4000-8000-000000000000" : String) ≠
      "00000000-0000-4000-8000-000000000001" ∧
    tapInterface "00000000-0000-4000-8000-000000000000" =
      tapInterface "00000000-0000-4000-8000-000000000001" ∧
    subnetId "00000000-0000-4000-8000-000000000000" =
      subnetId "00000000-0000-4000-8000-000000000001" ∧
    vmIp "00000000-0000-4000-8000-000000000000" =
      vmIp "00000000-0000-4000-8000-000000000001" := by
  refine ⟨by decide, rfl, rfl, rfl⟩

/-- Claim C5 (amended): the resource namespace is a deterministic
(pure) function of the identity; the control-socket path and the two
log paths are pairwise distinct for any two distinct identities; the
virtual-interface name (fixed prefix plus first 8 identity characters)
is distinct only for identities whose first 8 characters differ. -/
theorem namespace_determinism_and_distinctness :
    (∀ a b : String, a ≠ b → socketPath a ≠ socketPath b) ∧
    (∀ a b : String, a ≠ b → stdoutLogPath a ≠ stdoutLogPath b) ∧
    (∀ a b : String, a ≠ b → stderrLogPath a ≠ stderrLogPath b) ∧
    (∀ a b : String, take8 a ≠ take8 b → tapInterface a ≠ tapInterface b) := by
  refine ⟨?_, ?_, ?_, ?_⟩
  · exact fun a b hne h => hne (wrap_inj "/tmp/firecracker-" ".socket" a b h)
  · exact fun a b hne h => hne (wrap_inj "/tmp/fc-stdout-" ".log" a b h)
  · exact fun a b hne h => hne (wrap_inj "/tmp/fc-stderr-" ".log" a b h)
  · exact fun a b hne h => hne (prepend_inj "tap-" (take8 a) (take8 b) h)

theorem namespace_distinctness_witness :
    (("aa" : String) ≠ "bb") ∧ socketPath "aa" ≠ socketPath "bb" :=
  ⟨by decide, namespace_determinism_and_distinctness.1 "aa" "bb" (by decide)⟩

/-- Claim C10: a 2xx execute response whose JSON body lacks the
`stdout`, `stderr` or `success` field (or carries it with a wrong
type) is not a serialization error: `execute_code_via_api` substitutes
`""` for a missing/non-string `stdout` or `stderr` and `false` for a
missing/non-boolean `success`. -/
theorem execute_response_field_defaults (status : Nat) (j : Json)
    (h : statusIsSuccess status = true) :
    ∃ resp : ExecuteResponse,
      execute_code_via_api (.response status (.ok j)) = .ok resp ∧
      resp.stdout = ((j.getField "stdout").asStr).getD "" ∧
      resp.stderr = ((j.getField "stderr").asStr).getD "" ∧
      resp.success = ((j.getField "success").asBool).getD false ∧
      ((j.getField "stdout").asStr = none → resp.stdout = "") ∧
      ((j.getField "stderr").asStr = none → resp.stderr = "") ∧
      ((j.getField "success").asBool = none → resp.success = false) := by
  refine ⟨{ stdout := ((j.getField "stdout").asStr).getD ""
            stderr := ((j.getField "stderr").asStr).getD ""
            success := ((j.getField "success").asBool).getD false },
          ?_, rfl, rfl, rfl, ?_, ?_, ?_⟩
  · simp [execute_code_via_api, h]
  · intro hn; simp [hn]
  · intro hn; simp [hn]
  · intro hn; simp [hn]

theorem execute_response_field_defaults_witness :
    statusIsSuccess 200 = true ∧
    ∃ resp : ExecuteResponse,
      execute_code_via_api
        (.response 200 (.ok (Json.obj [("stdout", Json.num 4)]))) = .ok resp ∧
      resp.stdout = ((Json.getField (Json.obj [("stdout", Json.num 4)]) "stdout").asStr).getD "" ∧
      resp.stderr = ((Json.getField (Json.obj [("stdout", Json.num 4)]) "stderr").asStr).getD "" ∧
      resp.success = ((Json.getField (Json.obj [("stdout", Json.num 4)]) "success").asBool).getD false ∧
      ((Json.getField (Json.obj [("stdout", Json.num 4)]) "stdout").asStr = none → resp.stdout = "") ∧
      ((Json.getField (Json.obj [("stdout", Json.num 4)]) "stderr").asStr = none → resp.stderr = "") ∧
      ((Json.getField (Json.obj [("stdout", Json.num 4)]) "success").asBool = none → resp.success = false) :=
  ⟨rfl, execute_response_field_defaults 200 (Json.obj [("stdout", Json.num 4)]) rfl⟩

theorem poolStep_length_le {α : Type} (pool : List α) (op : PoolOp α)
    (h : pool.length ≤ VM_POOL_SIZE) :
    (poolStep pool op).length ≤ VM_POOL_SIZE := by
  cases op with
  | checkout =>
    simp only [poolStep, List.length_tail]
    omega
  | checkinSuccess vm =>
    by_cases hl : pool.length < VM_POOL_SIZE <;> simp [poolStep, hl] <;> omega
  | checkinFailure => simpa [poolStep] using h

theorem poolFold_length_le {α : Type} (pool : List α) (ops : List (PoolOp α))
    (h : pool.length ≤ VM_POOL_SIZE) :
    (ops.foldl poolStep pool).length ≤ VM_POOL_SIZE := by
  induction ops generalizing pool with
  | nil => simpa using h
  | cons op rest ih => exact ih _ (poolStep_length_le pool op h)

theorem runWithVm_length_le (pool1 : List String) (vm : String) (env : VMEnv)
    (h : pool1.length ≤ VM_POOL_SIZE) :
    ((runWithVm pool1 vm env).2.1).length ≤ VM_POOL_SIZE := by
  cases hex : execute_code_via_api env.execOutcome with
  | error e => simpa [runWithVm, hex] using h
  | ok r =>
    by_cases hl : pool1.length < VM_POOL_SIZE <;>
      simp [runWithVm, hex, hl] <;> omega

/-- Claim C2: the pool never exceeds `VM_POOL_SIZE = 3` under any
sequence of checkouts and checkins: a successful execution re-enqueues
the instance only while the pool holds fewer than `VM_POOL_SIZE`
instances, and otherwise the instance is retired, not enqueued; one
whole `run_in_vm` request also preserves the bound. -/
theorem pool_size_bounded :
    (∀ (α : Type) (ops : List (PoolOp α)),
      (ops.foldl poolStep []).length ≤ VM_POOL_SIZE) ∧
    (∀ (α : Type) (pool : List α) (vm : α), VM_POOL_SIZE ≤ pool.length →
      poolStep pool (.checkinSuccess vm) = pool) ∧
    (∀ (α : Type) (pool : List α) (vm : α), pool.length < VM_POOL_SIZE →
      poolStep pool (.checkinSuccess vm) = pool ++ [vm]) ∧
    (∀ (pool : List String) (env : VMEnv) (freshId : String),
      pool.length ≤ VM_POOL_SIZE →
      ((run_in_vm pool env freshId).2.1).length ≤ VM_POOL_SIZE) := by
  refine ⟨fun α ops => poolFold_length_le [] ops (by simp), ?_, ?_, ?_⟩
  · intro α pool vm h
    simp [poolStep, Nat.not_lt.mpr h]
  · intro α pool vm h
    simp [poolStep, h]
  · intro pool env freshId h
    cases pool with
    | cons vm rest =>
      have hr : rest.length ≤ VM_POOL_SIZE := by
        simp at h; omega
      simpa [run_in_vm] using runWithVm_length_le rest vm env hr
    | nil =>
      cases hcr : create_new_vm env freshId with
      | mk r tr =>
        cases r with
        | error e => simp [run_in_vm, hcr]
        | ok vm =>
          have hb := runWithVm_length_le [] vm env (by simp [VM_POOL_SIZE])
          cases hrw : runWithVm [] vm env with
          | mk r2 rest2 =>
            cases rest2 with
            | mk p2 tr2 =>
              rw [hrw] at hb
              simpa [run_in_vm, hcr, hrw] using hb

theorem pool_size_bounded_witness :
    (["a", "b", "c"] : List String).length ≤ VM_POOL_SIZE ∧
    ((run_in_vm ["a", "b", "c"]
      ⟨.ok (), .ok (), .ok (), .ok (),
        ExecOutcome.response 200 (.ok (Json.obj [])), .ok (), .ok ()⟩
      "fresh").2.1).length ≤ VM_POOL_SIZE :=
  ⟨by decide,
    pool_size_bounded.2.2.2 ["a", "b", "c"]
      ⟨.ok (), .ok (), .ok (), .ok (),
        ExecOutcome.response 200 (.ok (Json.obj [])), .ok (), .ok ()⟩
      "fresh" (by decide)⟩

theorem runCalls_trace (env : ApiEnv) (calls : List ApiCall) :
    ∃ n, (runCalls env calls).2 =
      (calls.map (fun c => (c.method, c.path))).take n ∧
      ((runCalls env calls).1 = .ok () →
        (runCalls env calls).2 = calls.map (fun c => (c.method, c.path))) := by
  induction calls with
  | nil => exact ⟨0, rfl, fun _ => rfl⟩
  | cons c rest ih =>
    cases hs : send_api_request env c.method c.path c.body with
    | error e =>
      refine ⟨1, ?_, ?_⟩ <;> simp [runCalls, hs]
    | ok u =>
      obtain ⟨n, htr, hok⟩ := ih
      refine ⟨n + 1, ?_, ?_⟩ <;> simp [runCalls, hs, htr]
      intro h
      simpa [runCalls, hs, htr] using hok h

theorem machine_config_400_aborts (env : ApiEnv)
    (vmId machineBody rbody : String)
    (h400 : env "PUT" "/machine-config" machineBody = .response 400 rbody) :
    configure_and_run_vm env (.ok machineBody) vmId =
      (.error (.ApiCommunicationError
        ("Machine config failed: " ++
          ("API communication error: " ++
            ("API returned error status: " ++ statusDisplay 400 ++ " for " ++
              "PUT" ++ " " ++ "/machine-config" ++ ". Error details: " ++
              rbody)))),
        [("PUT", "/machine-config")]) := by
  have hst : statusIsSuccess 400 = false := rfl
  have hsend : send_api_request env "PUT" "/machine-config" machineBody =
      .error (.ApiCommunicationError
        ("API returned error status: " ++ statusDisplay 400 ++ " for " ++
          "PUT" ++ " " ++ "/machine-config" ++ ". Error details: " ++ rbody)) := by
    simp [send_api_request, h400, hst]
  simp [configure_and_run_vm, configureCalls, runCalls, hsend,
    ExecutionError.display]

/-- Claim C1: `configure_and_run_vm` issues its control-socket calls in
the fixed order machine-config, boot-source, root drive, network
interface, start action — the trace sent is always a prefix of that
order, and is the whole order exactly when the run succeeds;
a non-success response aborts the sequence with an
`ApiCommunicationError` embedding path, method, status and body, and in
particular a 400 on `PUT /machine-config` fails the run with an error
message containing `machine-config` and `400`, the start action never
being sent. -/
theorem configure_sequence_order_and_abort (env : ApiEnv)
    (vmId machineBody rbody : String)
    (h400 : env "PUT" "/machine-config" machineBody = .response 400 rbody) :
    (∀ (env2 : ApiEnv) (mb : String), ∃ n,
      (configure_and_run_vm env2 (.ok mb) vmId).2 =
        List.take n [("PUT", "/machine-config"), ("PUT", "/boot-source"),
          ("PUT", "/drives/rootfs"), ("PUT", "/network-interfaces/eth0"),
          ("PUT", "/actions")]) ∧
    (∀ (env2 : ApiEnv) (mb : String),
      (configure_and_run_vm env2 (.ok mb) vmId).1 = .ok () →
      (configure_and_run_vm env2 (.ok mb) vmId).2 =
        [("PUT", "/machine-config"), ("PUT", "/boot-source"),
          ("PUT", "/drives/rootfs"), ("PUT", "/network-interfaces/eth0"),
          ("PUT", "/actions")]) ∧
    (∃ msg, (configure_and_run_vm env (.ok machineBody) vmId).1 =
        .error (.ApiCommunicationError msg) ∧
      (∃ x y, msg = x ++ "machine-config" ++ y) ∧
      (∃ x y, msg = x ++ "400" ++ y)) ∧
    (configure_and_run_vm env (.ok machineBody) vmId).2 =
      [("PUT", "/machine-config")] ∧
    ("PUT", "/actions") ∉ (configure_and_run_vm env (.ok machineBody) vmId).2 := by
  have habort := machine_config_400_aborts env vmId machineBody rbody h400
  refine ⟨?_, ?_, ?_, ?_, ?_⟩
  · intro env2 mb
    obtain ⟨n, htr, -⟩ := runCalls_trace env2 (configureCalls vmId mb)
    exact ⟨n, htr⟩
  · intro env2 mb h
    obtain ⟨-, -, hok⟩ := runCalls_trace env2 (configureCalls vmId mb)
    exact hok h
  · refine ⟨_, by rw [habort], ?_, ?_⟩
    · exact ⟨"Machine config failed: API communication error: API returned error status: 400 Bad Request for PUT /",
        ". Error details: " ++ rbody, rfl⟩
    · exact ⟨"Machine config failed: API communication error: API returned error status: ",
        " Bad Request for PUT /machine-config. Error details: " ++ rbody, rfl⟩
  · rw [habort]
  · have hnm : ("PUT", "/actions") ∉ [(("PUT" : String), ("/machine-config" : String))] := by
      decide
    rw [habort]
    exact hnm

theorem configure_sequence_order_and_abort_witness :
    ("PUT", "/actions") ∉
      (configure_and_run_vm (fun _ _ _ => ApiOutcome.response 400 "bad")
        (.ok "mb") "id").2 :=
  (configure_sequence_order_and_abort (fun _ _ _ => .response 400 "bad")
    "id" "mb" "bad" rfl).2.2.2.2

set_option maxRecDepth 10000 in
/-- Claim C3, evaluated at the failing input (the health check never
succeeding): the readiness wait does terminate after a bounded 150
probes with 100 ms delays doubling to a 1 s cap, returning a
timeout-class error embedding the full contents of both log files —
but its scheduled backoff alone totals 147 500 ms ≈ 147.5 s, far beyond
the 15 s boot timeout (`VM_BOOT_TIMEOUT_SECONDS`) plus any slack that
the code's own comment (`~15 seconds total`) and error message
(`did not become ready within 15 seconds`) announce. -/
theorem readiness_wait_overruns_boot_timeout
    (ip stdoutLog stderrLog : String) :
    (wait_for_api_server (fun _ => false) ip stdoutLog stderrLog).1 =
      .error (.TimeoutErrorWithLogs
        ("VM API server at " ++ ip ++ " did not become ready within " ++
          "15" ++ " seconds\n\nFirecracker stdout:\n" ++
          stdoutLog ++ "\n\nFirecracker stderr:\n" ++ stderrLog)) ∧
    (wait_for_api_server (fun _ => false) ip stdoutLog stderrLog).2.1 =
      VM_BOOT_TIMEOUT_SECONDS * 10 ∧
    (wait_for_api_server (fun _ => false) ip stdoutLog stderrLog).2.2 =
      147500 ∧
    147500 > (VM_BOOT_TIMEOUT_SECONDS + 15) * 1000 := by
  have hw : waitLoop (fun _ => false) (VM_BOOT_TIMEOUT_SECONDS * 10 + 1)
      0 100 0 = (false, 150, 147500) := by decide
  refine ⟨?_, ?_, ?_, by decide⟩ <;>
    (unfold wait_for_api_server; rw [hw]) <;> rfl

/-- Claim C8 counterexample: a run with an empty pool whose VM
configuration step fails (networking and spawn having succeeded)
returns the configuration error but performs no cleanup action: the
partially built instance is dropped without its resources being
reclaimed. -/
theorem construction_failure_skips_cleanup :
    (run_in_vm []
      ⟨.ok (), .ok (),
        .error (.ApiCommunicationError "Machine config failed: boom"),
        .ok (), ExecOutcome.sendError "x", .ok (), .ok ()⟩ "id").1 =
      .error (.ApiCommunicationError "Machine config failed: boom") ∧
    RunAction.actCleanup ∉
      (run_in_vm []
        ⟨.ok (), .ok (),
          .error (.ApiCommunicationError "Machine config failed: boom"),
          .ok (), ExecOutcome.sendError "x", .ok (), .ok ()⟩ "id").2.2 := by
  exact ⟨rfl, by decide⟩

/-- Claim C8 (amended): on the exit paths where an instance has been
obtained, the retirement task attempts cleanup and its outcome (like
the shutdown outcome) never alters the value returned to the caller —
a cleanup failure cannot replace or suppress the original error; but
on error paths during instance construction (`create_new_vm`),
`run_in_vm` returns the construction error without attempting any
cleanup of the partially provisioned instance. -/
theorem cleanup_on_post_checkout_paths :
    (∀ (pool : List String) (freshId : String)
        (s st cf w : Except ExecutionError Unit) (ex : ExecOutcome)
        (sh sh2 c c2 : Except ExecutionError Unit),
      run_in_vm pool ⟨s, st, cf, w, ex, sh, c⟩ freshId =
        run_in_vm pool ⟨s, st, cf, w, ex, sh2, c2⟩ freshId) ∧
    (∀ (vm : String) rest env freshId e,
      execute_code_via_api env.execOutcome = .error e →
      (run_in_vm (vm :: rest) env freshId).1 = .error e ∧
      RunAction.actCleanup ∈ (run_in_vm (vm :: rest) env freshId).2.2) ∧
    (∀ (vm : String) rest env freshId r,
      execute_code_via_api env.execOutcome = .ok r →
      ¬rest.length < VM_POOL_SIZE →
      (run_in_vm (vm :: rest) env freshId).1 = .ok r ∧
      RunAction.actCleanup ∈ (run_in_vm (vm :: rest) env freshId).2.2) ∧
    (∀ env freshId e,
      env.setupNetworking = .ok () → env.startFirecracker = .ok () →
      env.configureAndRun = .error e →
      (run_in_vm [] env freshId).1 = .error e ∧
      RunAction.actCleanup ∉ (run_in_vm [] env freshId).2.2) := by
  refine ⟨?_, ?_, ?_, ?_⟩
  · intro pool freshId s st cf w ex sh sh2 c c2
    cases pool <;> rfl
  · intro vm rest env freshId e h
    refine ⟨?_, ?_⟩ <;> simp [run_in_vm, runWithVm, h]
  · intro vm rest env freshId r h hl
    refine ⟨?_, ?_⟩ <;> simp [run_in_vm, runWithVm, h, hl]
  · intro env freshId e h1 h2 h3
    refine ⟨?_, ?_⟩ <;> simp [run_in_vm, create_new_vm, h1, h2, h3]

theorem cleanup_on_post_checkout_paths_witness :
    ((run_in_vm ["p1"]
      ⟨.ok (), .ok (), .ok (), .ok (), ExecOutcome.sendError "down",
        .error (.ResourceError "cleanup bang"), .ok ()⟩ "f").1 =
      .error (.ApiCommunicationError "Failed to send request: down")) ∧
    RunAction.actCleanup ∈
      (run_in_vm ["p1"]
        ⟨.ok (), .ok (), .ok (), .ok (), ExecOutcome.sendError "down",
          .error (.ResourceError "cleanup bang"), .ok ()⟩ "f").2.2 :=
  cleanup_on_post_checkout_paths.2.1 "p1" []
    ⟨.ok (), .ok (), .ok (), .ok (), ExecOutcome.sendError "down",
      .error (.ResourceError "cleanup bang"), .ok ()⟩ "f" _ rfl

theorem removeFileIfExists_ok (fs : String → Bool)
    (rr : String → Except String Unit) (p lbl : String)
    (h : rr p = .ok ()) :
    ∃ fs2, removeFileIfExists fs rr p lbl = .ok fs2 ∧ fs2 p = false ∧
      ∀ q, q ≠ p → fs2 q = fs q := by
  by_cases hf : fs p
  · refine ⟨fun q => if q = p then false else fs q, ?_, by simp, ?_⟩
    · simp [removeFileIfExists, hf, h]
    · intro q hq; simp [hq]
  · refine ⟨fs, ?_, by simpa using hf, fun q _ => rfl⟩
    simp [removeFileIfExists, hf]

theorem cleanup_noop_of_absent (vmId : String) (env : CleanupEnv)
    (h1 : env.fs (socketPath vmId) = false)
    (h2 : env.fs (stdoutLogPath vmId) = false)
    (h3 : env.fs (stderrLogPath vmId) = false) :
    cleanup vmId env = (.ok (), env.fs) := by
  simp [cleanup, removeFileIfExists, h1, h2, h3]

theorem cleanup_ok_of_removeOk (vmId : String) (env : CleanupEnv)
    (hrm : ∀ p, env.removeRes p = .ok ()) :
    (cleanup vmId env).1 = .ok () ∧
    (cleanup vmId env).2 (socketPath vmId) = false ∧
    (cleanup vmId env).2 (stdoutLogPath vmId) = false ∧
    (cleanup vmId env).2 (stderrLogPath vmId) = false ∧
    (∀ q, q ≠ socketPath vmId → q ≠ stdoutLogPath vmId →
      q ≠ stderrLogPath vmId → (cleanup vmId env).2 q = env.fs q) := by
  obtain ⟨fs1, e1, hp1, ho1⟩ :=
    removeFileIfExists_ok env.fs env.removeRes (socketPath vmId)
      "Failed to remove socket: " (hrm _)
  obtain ⟨fs2, e2, hp2, ho2⟩ :=
    removeFileIfExists_ok fs1 env.removeRes (stdoutLogPath vmId)
      "Failed to remove stdout log: " (hrm _)
  obtain ⟨fs3, e3, hp3, ho3⟩ :=
    removeFileIfExists_ok fs2 env.removeRes (stderrLogPath vmId)
      "Failed to remove stderr log: " (hrm _)
  have hc : cleanup vmId env = (.ok (), fs3) := by
    simp [cleanup, e1, e2, e3]
  have hfst : (cleanup vmId env).1 = .ok () := by rw [hc]
  have hsnd : ∀ q, (cleanup vmId env).2 q = fs3 q := fun q => by rw [hc]
  rw [hfst, hsnd, hsnd, hsnd]
  refine ⟨rfl, ?_, ?_, hp3, ?_⟩
  · by_cases hse : socketPath vmId = stderrLogPath vmId
    · rw [hse]; exact hp3
    · rw [ho3 _ hse]
      by_cases hso : socketPath vmId = stdoutLogPath vmId
      · rw [hso]; exact hp2
      · rw [ho2 _ hso]; exact hp1
  · by_cases hoe : stdoutLogPath vmId = stderrLogPath vmId
    · rw [hoe]; exact hp3
    · rw [ho3 _ hoe]; exact hp2
  · intro q hq1 hq2 hq3
    rw [hsnd, ho3 _ hq3, ho2 _ hq2, ho1 _ hq1]

/-- Claim C9: cleanup is idempotent with respect to absent resources —
when the socket and log files are absent it succeeds without touching
anything (for any removal outcomes); when removals succeed it removes
every one of the three files that exists and leaves all other paths
untouched; a second invocation after a successful one is a no-op
success; and network deprovisioning swallows the `ip link delete`
outcome, never failing the teardown. -/
theorem cleanup_idempotent_and_best_effort :
    (∀ d : Except String Unit, cleanup_networking d = .ok ()) ∧
    (∀ (vmId : String) (env : CleanupEnv),
      env.fs (socketPath vmId) = false →
      env.fs (stdoutLogPath vmId) = false →
      env.fs (stderrLogPath vmId) = false →
      cleanup vmId env = (.ok (), env.fs)) ∧
    (∀ (vmId : String) (env : CleanupEnv),
      (∀ p, env.removeRes p = .ok ()) →
      (cleanup vmId env).1 = .ok () ∧
      (cleanup vmId env).2 (socketPath vmId) = false ∧
      (cleanup vmId env).2 (stdoutLogPath vmId) = false ∧
      (cleanup vmId env).2 (stderrLogPath vmId) = false ∧
      (∀ q, q ≠ socketPath vmId → q ≠ stdoutLogPath vmId →
        q ≠ stderrLogPath vmId → (cleanup vmId env).2 q = env.fs q)) ∧
    (∀ (vmId : String) (env env2 : CleanupEnv),
      (∀ p, env.removeRes p = .ok ()) →
      env2.fs = (cleanup vmId env).2 →
      cleanup vmId env2 = (.ok (), env2.fs)) := by
  refine ⟨fun d => rfl, cleanup_noop_of_absent, cleanup_ok_of_removeOk, ?_⟩
  intro vmId env env2 hrm hfs
  obtain ⟨-, hs, ho, he, -⟩ := cleanup_ok_of_removeOk vmId env hrm
  exact cleanup_noop_of_absent vmId env2 (by rw [hfs]; exact hs)
    (by rw [hfs]; exact ho) (by rw [hfs]; exact he)

theorem cleanup_idempotent_witness :
    cleanup "id" ⟨fun _ => false, fun _ => .ok (), .ok ()⟩ =
      (.ok (), (CleanupEnv.mk (fun _ => false) (fun _ => .ok ()) (.ok ())).fs) :=
  cleanup_idempotent_and_best_effort.2.1 "id"
    ⟨fun _ => false, fun _ => .ok (), .ok ()⟩ rfl rfl rfl

/-- Claim C7 counterexample: with the log files created, the spawn
successful and the control socket never appearing, `start_firecracker`
still returns success after its fixed 100 ms sleep and without killing
the child — it neither waits 5–15 s for the socket nor reports a
startup error. -/
theorem socket_wait_counterexample :
    (SpawnEnv.mk (.ok ()) (.ok ()) (.ok ()) false).socketAppeared = false ∧
    start_firecracker ⟨.ok (), .ok (), .ok (), false⟩ = (.ok (), 100, false) :=
  ⟨rfl, rfl⟩

/-- Claim C7 (amended): after spawning the hypervisor process (control
socket path as argument, stdout/stderr redirected to the namespace's
log files), the supervisor sleeps a fixed 100 ms and returns success;
it never consults whether the control socket appeared and never
force-kills the child on this path.  Only a spawn failure is reported
(as `ProcessSpawnError`); a log-file creation failure is a
`ResourceError`. -/
theorem spawn_fixed_sleep_no_socket_check :
    (∀ env : SpawnEnv,
      start_firecracker env =
        start_firecracker { env with socketAppeared := true }) ∧
    (∀ env : SpawnEnv,
      env.createStdoutLog = .ok () → env.createStderrLog = .ok () →
      env.spawnResult = .ok () →
      start_firecracker env = (.ok (), 100, false)) ∧
    (∀ (env : SpawnEnv) (e : String),
      env.createStdoutLog = .ok () → env.createStderrLog = .ok () →
      env.spawnResult = .error e →
      start_firecracker env =
        (.error (.ProcessSpawnError ("Failed to start Firecracker: " ++ e)),
          0, false)) := by
  refine ⟨fun env => rfl, ?_, ?_⟩
  · intro env h1 h2 h3
    simp [start_firecracker, h1, h2, h3]
  · intro env e h1 h2 h3
    simp [start_firecracker, h1, h2, h3]

theorem spawn_fixed_sleep_witness :
    start_firecracker ⟨.ok (), .ok (), .ok (), true⟩ = (.ok (), 100, false) :=
  spawn_fixed_sleep_no_socket_check.2.1 ⟨.ok (), .ok (), .ok (), true⟩ rfl rfl rfl

/-- Claim C6: every failure of the guest execute call (transport
error, non-success status, parse failure) is mapped to an
`ApiCommunicationError`; on a channel error `run_in_vm` retires the
checked-out instance (it is returned to the caller's error unchanged,
the instance is not re-enqueued, the call is not retried), and a
successful channel result is propagated unchanged. -/
theorem channel_failure_retires_instance :
    (∀ e, execute_code_via_api (.sendError e) =
      .error (.ApiCommunicationError ("Failed to send request: " ++ e))) ∧
    (∀ status body, statusIsSuccess status = false →
      execute_code_via_api (.response status body) =
        .error (.ApiCommunicationError
          ("API request failed with status: " ++ statusDisplay status))) ∧
    (∀ status e, statusIsSuccess status = true →
      execute_code_via_api (.response status (.error e)) =
        .error (.ApiCommunicationError ("Failed to parse response: " ++ e))) ∧
    (∀ out e, execute_code_via_api out = .error e →
      ∃ m, e = .ApiCommunicationError m) ∧
    (∀ (vm : String) rest env freshId e,
      execute_code_via_api env.execOutcome = .error e →
      run_in_vm (vm :: rest) env freshId =
        (.error e, rest, [.actExecute, .actShutdown, .actCleanup])) ∧
    (∀ (vm : String) rest env freshId e, vm ∉ rest →
      execute_code_via_api env.execOutcome = .error e →
      vm ∉ (run_in_vm (vm :: rest) env freshId).2.1) ∧
    (∀ (vm : String) rest env freshId r,
      execute_code_via_api env.execOutcome = .ok r →
      (run_in_vm (vm :: rest) env freshId).1 = .ok r) := by
  refine ⟨fun e => rfl, ?_, ?_, ?_, ?_, ?_, ?_⟩
  · intro status body h
    simp [execute_code_via_api, h]
  · intro status e h
    simp [execute_code_via_api, h]
  · intro out e h
    match out with
    | .sendError m =>
      simp [execute_code_via_api] at h
      exact ⟨_, h.symm⟩
    | .response status body =>
      by_cases hs : statusIsSuccess status = true
      · match body with
        | .error m =>
          simp [execute_code_via_api, hs] at h
          exact ⟨_, h.symm⟩
        | .ok j =>
          simp [execute_code_via_api, hs] at h
      · simp [execute_code_via_api, Bool.of_not_eq_true hs] at h
        exact ⟨_, h.symm⟩
  · intro vm rest env freshId e h
    simp [run_in_vm, runWithVm, h]
  · intro vm rest env freshId e hnotin h
    simp [run_in_vm, runWithVm, h]
    exact hnotin
  · intro vm rest env freshId r h
    by_cases hlen : rest.length < VM_POOL_SIZE <;>
      simp [run_in_vm, runWithVm, h, hlen]

theorem channel_failure_retires_instance_witness :
    execute_code_via_api (ExecOutcome.sendError "refused") =
      .error (.ApiCommunicationError "Failed to send request: refused") ∧
    run_in_vm ["vm1", "vm2"]
      ⟨.ok (), .ok (), .ok (), .ok (), ExecOutcome.sendError "refused", .ok (), .ok ()⟩
      "fresh" =
      (.error (.ApiCommunicationError "Failed to send request: refused"),
        ["vm2"], [.actExecute, .actShutdown, .actCleanup]) :=
  ⟨channel_failure_retires_instance.1 "refused",
    channel_failure_retires_instance.2.2.2.2.1 "vm1" ["vm2"]
      ⟨.ok (), .ok (), .ok (), .ok (), ExecOutcome.sendError "refused", .ok (), .ok ()⟩
      "fresh" _ rfl⟩
example : subnetId "00000000-0000-4000-8000-000000000000" = 1 := rfl
example : subnetId "ffffffff-0000-4000-8000-000000000000" = 16 := rfl
example : vmIp "ffffffff-0000-4000-8000-000000000000" = "172.16.16.2" := rfl
example : setupHostIpCidr "ffffffff-0000-4000-8000-000000000000" = "172.16.16.1/24" := rfl
example : configHostIp "ffffffff-0000-4000-8000-000000000000" = "172.16.16.1" := rfl
